import Mathlib

/-!
Shallow embedding of the api-gateway's datacenter HTTP handlers
(src/datacenters.go) and of the mock service NATS subscribers
(src/unnamed/part_000), together with proofs about the behaviours the
specification describes.

Store operations (`FindByID`, `FindByName`, `Save`, `Delete`, `Services`),
the redaction/enrichment projections and the sentinel gateway errors are
not part of the sources under src/; they are modelled from the spec and
carry a doc comment saying so.  Everything else is translated directly
from the Go sources.
-/

namespace ApiGateway

/-- AuthenticatedUser value type, decoded from the bearer token
(spec section 3): `ID`, `Username`, `GroupID` (0 = unassigned), `Admin`. -/
structure AuthenticatedUser where
  id : Nat
  username : String
  groupID : Nat
  admin : Bool
deriving DecidableEq

/-- Datacenter entity (spec section 3): identity, owning tenant, name,
type, the four credential fields, and the vCloud URL. -/
structure Datacenter where
  id : Nat
  groupID : Nat
  name : String
  type : String
  username : String
  password : String
  accessKeyID : String
  secretAccessKey : String
  vCloudURL : String
deriving DecidableEq

/-- Service entity (spec section 3 and the mock list in
src/unnamed/part_000): a reference that blocks deletion of its
Datacenter while present. -/
structure Service where
  id : String
  name : String
  groupID : Nat
  datacenterID : Nat
deriving DecidableEq

/-- Modelled from the spec: the backing store is a black box holding the
datacenters and the services; we represent it as two lists. -/
structure Store where
  datacenters : List Datacenter
  services : List Service
deriving DecidableEq

/-- Result of an echo handler: a JSON list body, a JSON entity body, a
plain-text body, or an HTTP error (echo.NewHTTPError or one of the
sentinel gateway errors). -/
inductive DCResponse where
  | jsonList (status : Nat) (dcs : List Datacenter)
  | jsonOne (status : Nat) (d : Datacenter)
  | text (status : Nat) (body : String)
  | httpError (code : Nat) (msg : String)
deriving DecidableEq

/-- HTTP status carried by a response. -/
def DCResponse.status : DCResponse → Nat
  | .jsonList s _ => s
  | .jsonOne s _ => s
  | .text s _ => s
  | .httpError s _ => s

/-- Modelled from the spec: `ErrBadReqBody`, the sentinel returned when
the request body cannot be mapped (ValidationError, HTTP 400). -/
def ErrBadReqBody : DCResponse := .httpError 400 "Invalid request body"

/-- Modelled from the spec: `ErrUnauthorized`, the sentinel for an
ownership/tenant mismatch on a write (HTTP 401/403; the test suite
expects 403). -/
def ErrUnauthorized : DCResponse := .httpError 403 "unauthorized"

/-- Modelled from the spec: `ErrInternal`, serialization/store failure
(HTTP 500). -/
def ErrInternal : DCResponse := .httpError 500 "internal error"

/-- Modelled from the spec: `FindByID` resolves an identifier against the
store (first stored datacenter with that identifier). -/
def Store.findByID (st : Store) (i : Nat) : Option Datacenter :=
  st.datacenters.find? (fun d => d.id == i)

/-- Modelled from the spec: `FindByName` looks a datacenter up by name,
globally across all tenants (spec section 3: name uniqueness is global). -/
def Store.findByName (st : Store) (nm : String) : Option Datacenter :=
  st.datacenters.find? (fun d => d.name == nm)

/-- Modelled from the spec: the fresh identifier the backend assigns on
create (spec section 4.3: `create` assigns a fresh identifier); one more
than the largest identifier in the store, hence never already in use. -/
def freshID (st : Store) : Nat :=
  (st.datacenters.map Datacenter.id).foldr max 0 + 1

/-- Modelled from the spec: `Save` (spec section 3 lifecycle) assigns an
identifier if absent and appends the entity, and otherwise mutates the
stored entity with that identifier in place.  Returns the saved entity
(with its assigned identifier, as the Go pointer receiver observes it)
and the new store. -/
def Store.saveDatacenter (st : Store) (d : Datacenter) : Datacenter × Store :=
  if d.id = 0 then
    let nd : Datacenter := { d with id := freshID st }
    (nd, { st with datacenters := st.datacenters ++ [nd] })
  else
    (d, { st with datacenters :=
            st.datacenters.map (fun x => if x.id = d.id then d else x) })

/-- Modelled from the spec: `Delete` removes the entity from the store;
deletion is never cascaded. -/
def Store.deleteDatacenter (st : Store) (d : Datacenter) : Store :=
  { st with datacenters := st.datacenters.filter (fun x => x.id != d.id) }

/-- Modelled from the spec: `d.Services()` looks up all Services
referencing this Datacenter's identifier (spec section 4.4, delete). -/
def Store.servicesOf (st : Store) (d : Datacenter) : List Service :=
  st.services.filter (fun s => s.datacenterID == d.id)

/-- Modelled from the spec: `d.Validate()` fails with a validation error
when required fields are absent; the spec does not enumerate them, we
require `Name` and `Type` to be non-empty. -/
def Datacenter.validate (d : Datacenter) : Option String :=
  if d.name = "" then some "datacenter name is empty"
  else if d.type = "" then some "datacenter type is empty"
  else none

/-- Modelled from the spec: `Redact` strips the secret fields
(`Password`, `AccessKeyID`, `SecretAccessKey`) before the entity crosses
a trust boundary. -/
def Datacenter.redact (d : Datacenter) : Datacenter :=
  { d with password := "", accessKeyID := "", secretAccessKey := "" }

/-- Modelled from the spec: `Improve` is an enrichment extension point
that must not alter identity or ownership fields; modelled as the
identity projection. -/
def Datacenter.improve (d : Datacenter) : Datacenter := d

/-- Credential merge performed by updateDatacenterHandler
(src/datacenters.go lines 124-127): only `Username`, `Password`,
`AccessKeyID` and `SecretAccessKey` are copied from the request onto the
stored entity. -/
def mergeCredentials (existing d : Datacenter) : Datacenter :=
  { existing with
      username := d.username
      password := d.password
      accessKeyID := d.accessKeyID
      secretAccessKey := d.secretAccessKey }

/-- Embedding of getDatacentersHandler (src/datacenters.go): admins list
every stored datacenter via FindAll, non-admins list their own group's
via au.Datacenters(); each entry is then redacted and improved. -/
def getDatacentersHandler (st : Store) (au : AuthenticatedUser) : DCResponse :=
  let datacenters :=
    if au.admin then st.datacenters
    else st.datacenters.filter (fun d => d.groupID == au.groupID)
  .jsonList 200 (datacenters.map (fun d => (Datacenter.redact d).improve))

/-- Embedding of createDatacenterHandler (src/datacenters.go).  `req` is
the outcome of `d.Map(c)` (`none` = malformed body); `saveFails` is the
outcome of `d.Save()`.  A failed save is only logged in the source, so
the handler proceeds to reply 200 with the unchanged store. -/
def createDatacenterHandler (st : Store) (au : AuthenticatedUser)
    (req : Option Datacenter) (saveFails : Bool) : DCResponse × Store :=
  if au.groupID = 0 then
    (.text 401 "Current user does not belong to any group.\nPlease assign the user to a group before performing this action", st)
  else
    match req with
    | none => (ErrBadReqBody, st)
    | some d0 =>
      match d0.validate with
      | some m => (.httpError 400 m, st)
      | none =>
        let d1 : Datacenter := { d0 with groupID := au.groupID }
        match st.findByName d1.name with
        | some _ => (.httpError 409 "Specified datacenter already exists", st)
        | none =>
          if saveFails then (.jsonOne 200 d1, st)
          else
            let p := st.saveDatacenter d1
            (.jsonOne 200 p.1, p.2)

/-- Embedding of updateDatacenterHandler (src/datacenters.go).  The
ownership test is translated verbatim from the source, which compares
`au.GroupID` with itself (`au.GroupID != au.GroupID`), so the
ErrUnauthorized branch is unreachable.  The response marshals `d` (the
request entity), not the merged stored entity. -/
def updateDatacenterHandler (st : Store) (au : AuthenticatedUser)
    (idParam : Nat) (req : Option Datacenter) (saveFails : Bool) :
    DCResponse × Store :=
  match req with
  | none => (ErrBadReqBody, st)
  | some d =>
    match st.findByID idParam with
    | none => (.httpError 404 "not found", st)
    | some existing0 =>
      if au.groupID ≠ au.groupID then (ErrUnauthorized, st)
      else
        let existing1 := mergeCredentials existing0 d
        if saveFails then (.jsonOne 200 d, st)
        else (.jsonOne 200 d, (st.saveDatacenter existing1).2)

/-- Embedding of deleteDatacenterHandler (src/datacenters.go): ownership
check against the stored datacenter's group, then the referential
integrity check (`len(ss) > 0` replies with echo.NewHTTPError 400), then
the delete and an empty 200 reply. -/
def deleteDatacenterHandler (st : Store) (au : AuthenticatedUser)
    (idParam : Nat) : DCResponse × Store :=
  match st.findByID idParam with
  | none => (.httpError 404 "not found", st)
  | some d =>
    if au.groupID ≠ d.groupID then (ErrUnauthorized, st)
    else if (st.servicesOf d).length > 0 then
      (.httpError 400 "Existing services are referring to this datacenter.", st)
    else
      (.text 200 "", st.deleteDatacenter d)

/-- Mock service fixtures from src/unnamed/part_000. -/
def mockServices : List Service :=
  [ { id := "1", name := "test", groupID := 1, datacenterID := 1 },
    { id := "2", name := "test2", groupID := 2, datacenterID := 3 } ]

/-- Match test of the service.get subscriber loop (src/unnamed/part_000):
non-zero query group requires both group and id to match, zero query
group matches on id alone. -/
def getServiceMatch (qs s : Service) : Bool :=
  (qs.groupID != 0 && s.groupID == qs.groupID && s.id == qs.id) ||
  (qs.groupID == 0 && s.id == qs.id)

/-- Reply of the service.get subscriber: either the first matching stored
service, or the not-found sentinel payload.  `none` models an empty
message payload. -/
inductive ServiceReply where
  | found (s : Service)
  | notFoundSentinel
deriving DecidableEq

/-- Embedding of getServiceSubcriber (src/unnamed/part_000): on an empty
payload, or when no stored service matches, the subscriber publishes the
not-found sentinel; otherwise it publishes the first match.  Exactly one
reply is always published. -/
def getServiceReply (store : List Service) (q : Option Service) : ServiceReply :=
  match q with
  | none => .notFoundSentinel
  | some qs =>
    match store.find? (fun s => getServiceMatch qs s) with
    | some s => .found s
    | none => .notFoundSentinel

/-- Embedding of findServiceSubcriber (src/unnamed/part_000): the reply is
the marshalled full store, the message payload is ignored entirely. -/
def findServiceReply (store : List Service) (_q : Option Service) : List Service :=
  store

/-- Embedding of createServiceSubcriber (src/unnamed/part_000): the mock
backend overwrites the incoming identifier with a server-assigned one and
echoes the entity back. -/
def createServiceReply (s : Service) : Service :=
  { s with id := "3" }

/-- Abbreviation for building concrete datacenters in examples. -/
def mkDC (i g : Nat) (nm ty us pw ak sk url : String) : Datacenter :=
  ⟨i, g, nm, ty, us, pw, ak, sk, url⟩

/-- Abbreviation for building concrete users in examples. -/
def mkUser (i : Nat) (un : String) (g : Nat) (adm : Bool) : AuthenticatedUser :=
  ⟨i, un, g, adm⟩

/-- Abbreviation for building concrete services in examples. -/
def mkSvc (i nm : String) (g dc : Nat) : Service :=
  ⟨i, nm, g, dc⟩

/-! Helper lemmas. -/

/-- Every member of a list of naturals is bounded by its max fold. -/
lemma le_foldr_max (x : Nat) : ∀ l : List Nat, x ∈ l → x ≤ l.foldr max 0 := by
  intro l hx
  induction l with
  | nil => cases hx
  | cons a t ih =>
    rcases List.mem_cons.mp hx with h | h
    · subst h; exact Nat.le_max_left _ _
    · exact Nat.le_trans (ih h) (Nat.le_max_right _ _)

/-- Identifiers already stored are strictly below the fresh identifier. -/
lemma id_lt_freshID (st : Store) (d : Datacenter) (hd : d ∈ st.datacenters) :
    d.id < freshID st := by
  have : d.id ≤ (st.datacenters.map Datacenter.id).foldr max 0 :=
    le_foldr_max _ _ (List.mem_map.mpr ⟨d, hd, rfl⟩)
  exact Nat.lt_succ_of_le this

/-- The entity returned by a save keeps the group of its argument. -/
lemma saveDatacenter_fst_groupID (st : Store) (d : Datacenter) :
    (st.saveDatacenter d).1.groupID = d.groupID := by
  unfold Store.saveDatacenter
  split <;> rfl

/-- Every datacenter present after a save is either an old one or has the
group of the saved entity. -/
lemma mem_saveDatacenter (st : Store) (d : Datacenter) (x : Datacenter)
    (hx : x ∈ (st.saveDatacenter d).2.datacenters) :
    x ∈ st.datacenters ∨ x.groupID = d.groupID := by
  unfold Store.saveDatacenter at hx
  by_cases h0 : d.id = 0
  · rw [if_pos h0] at hx
    simp only [List.mem_append, List.mem_singleton] at hx
    rcases hx with h | h
    · exact Or.inl h
    · exact Or.inr (by rw [h])
  · rw [if_neg h0] at hx
    simp only [List.mem_map] at hx
    rcases hx with ⟨y, hy, hxy⟩
    by_cases hid : y.id = d.id
    · rw [if_pos hid] at hxy
      exact Or.inr (by rw [← hxy])
    · rw [if_neg hid] at hxy
      exact Or.inl (hxy ▸ hy)

/-! Claim theorems. -/

/-- C1: the claim says a PUT /datacenters/:id by a non-admin caller whose
group differs from the stored datacenter's group fails with Unauthorized
and persists nothing.  The source's ownership test compares `au.GroupID`
with itself, so it never fires: a non-admin caller of group 2 updating a
datacenter of group 1 receives a 200 success reply and the credential
change is persisted. -/
theorem c1_ownership_check_never_fires :
    updateDatacenterHandler
        { datacenters := [mkDC 1 1 "test" "vcloud" "u" "p" "ak" "sk" "url"],
          services := [] }
        (mkUser 9 "intruder" 2 false) 1
        (some (mkDC 0 0 "" "" "u2" "p2" "ak2" "sk2" "")) false
      = (.jsonOne 200 (mkDC 0 0 "" "" "u2" "p2" "ak2" "sk2" ""),
         { datacenters := [mkDC 1 1 "test" "vcloud" "u2" "p2" "ak2" "sk2" "url"],
           services := [] })
    ∧ ({ datacenters := [mkDC 1 1 "test" "vcloud" "u2" "p2" "ak2" "sk2" "url"],
         services := [] } : Store)
        ≠ { datacenters := [mkDC 1 1 "test" "vcloud" "u" "p" "ak" "sk" "url"],
            services := [] } := by
  constructor
  · rfl
  · decide

/-- C3 counterexample: the claim says deleting a datacenter referenced by
a service fails with Conflict (409 in this system's error taxonomy); at a
concrete referenced datacenter with a matching-group caller the handler
replies with status 400, not 409 (and leaves the store intact). -/
theorem c3_counterexample_status_is_400 :
    (deleteDatacenterHandler
        { datacenters := [mkDC 1 1 "test" "vcloud" "u" "p" "ak" "sk" "url"],
          services := [mkSvc "1" "svc" 1 1] }
        (mkUser 7 "owner" 1 false) 1).1.status = 400
    ∧ (deleteDatacenterHandler
        { datacenters := [mkDC 1 1 "test" "vcloud" "u" "p" "ak" "sk" "url"],
          services := [mkSvc "1" "svc" 1 1] }
        (mkUser 7 "owner" 1 false) 1).1.status ≠ 409
    ∧ (deleteDatacenterHandler
        { datacenters := [mkDC 1 1 "test" "vcloud" "u" "p" "ak" "sk" "url"],
          services := [mkSvc "1" "svc" 1 1] }
        (mkUser 7 "owner" 1 false) 1).2
      = { datacenters := [mkDC 1 1 "test" "vcloud" "u" "p" "ak" "sk" "url"],
          services := [mkSvc "1" "svc" 1 1] } := by
  refine ⟨rfl, by decide, rfl⟩

/-- C7 counterexample: the claim says a failing store Save makes the
handler return InternalError (500); at a concrete create request whose
save fails, the handler replies with status 200 (the failure is only
logged) and not 500. -/
theorem c7_counterexample_save_failure_returns_200 :
    (createDatacenterHandler
        { datacenters := [], services := [] }
        (mkUser 7 "owner" 1 false)
        (some (mkDC 0 0 "new" "vcloud" "u" "p" "ak" "sk" "url")) true).1.status = 200
    ∧ (createDatacenterHandler
        { datacenters := [], services := [] }
        (mkUser 7 "owner" 1 false)
        (some (mkDC 0 0 "new" "vcloud" "u" "p" "ak" "sk" "url")) true).1.status ≠ 500 := by
  refine ⟨rfl, by decide⟩

/-- C2: every successful datacenter creation persists and returns an
entity whose group is the authenticated creator's group, regardless of
the group supplied in the request body: whenever the create handler
replies 200 with entity `r` and new store `st2`, `r` carries the caller's
group, and every datacenter of `st2` is either one that was already
stored or carries the caller's group. -/
theorem c2_create_stamps_creator_group (st : Store) (au : AuthenticatedUser)
    (d0 r : Datacenter) (st2 : Store)
    (h : createDatacenterHandler st au (some d0) false = (.jsonOne 200 r, st2)) :
    r.groupID = au.groupID ∧
    ∀ d ∈ st2.datacenters, d ∈ st.datacenters ∨ d.groupID = au.groupID := by
  simp only [createDatacenterHandler] at h
  split at h
  · simp at h
  · split at h
    · simp at h
    · split at h
      · simp at h
      · simp only [Bool.false_eq_true, if_false, Prod.mk.injEq,
          DCResponse.jsonOne.injEq] at h
        obtain ⟨⟨-, hr⟩, hst⟩ := h
        subst hr
        subst hst
        refine ⟨saveDatacenter_fst_groupID _ _, fun d hd => ?_⟩
        exact mem_saveDatacenter _ _ _ hd

/-- C2 witness: creating over the empty store as a non-admin user of
group 1 with a request body claiming group 42 yields entity of group 1. -/
theorem c2_witness :
    (mkDC 1 1 "new" "vcloud" "u" "p" "ak" "sk" "url").groupID
        = (mkUser 7 "owner" 1 false).groupID
    ∧ ∀ d ∈ ({ datacenters := [mkDC 1 1 "new" "vcloud" "u" "p" "ak" "sk" "url"],
               services := [] } : Store).datacenters,
        d ∈ ({ datacenters := [], services := [] } : Store).datacenters
        ∨ d.groupID = (mkUser 7 "owner" 1 false).groupID :=
  c2_create_stamps_creator_group
    { datacenters := [], services := [] }
    (mkUser 7 "owner" 1 false)
    (mkDC 0 42 "new" "vcloud" "u" "p" "ak" "sk" "url")
    (mkDC 1 1 "new" "vcloud" "u" "p" "ak" "sk" "url")
    { datacenters := [mkDC 1 1 "new" "vcloud" "u" "p" "ak" "sk" "url"],
      services := [] }
    rfl

/-- C3 (amended): for a DELETE /datacenters/:id by a caller whose group
matches the stored datacenter's: if at least one service references the
datacenter the handler fails with the HTTP 400 error "Existing services
are referring to this datacenter." (not 409 Conflict) and the store is
unchanged; with zero references the delete succeeds, replying 200 with an
empty body and removing the datacenter. -/
theorem c3_delete_referential_integrity (st : Store) (au : AuthenticatedUser)
    (idp : Nat) (d : Datacenter)
    (hfind : st.findByID idp = some d) (hown : au.groupID = d.groupID) :
    ((st.servicesOf d).length > 0 →
        deleteDatacenterHandler st au idp
          = (.httpError 400 "Existing services are referring to this datacenter.", st))
    ∧ ((st.servicesOf d).length = 0 →
        deleteDatacenterHandler st au idp
          = (.text 200 "",
             { st with datacenters := st.datacenters.filter (fun x => x.id != d.id) })) := by
  constructor
  · intro href
    simp only [deleteDatacenterHandler, hfind]
    rw [if_neg (by simp [hown]), if_pos href]
  · intro hzero
    simp only [deleteDatacenterHandler, hfind]
    rw [if_neg (by simp [hown]), if_neg (by simp [hzero])]
    rfl

/-- C3 witness: deleting an unreferenced datacenter owned by the caller's
group succeeds with an empty 200 reply and removes it from the store. -/
theorem c3_witness :
    deleteDatacenterHandler
        { datacenters := [mkDC 1 1 "test" "vcloud" "u" "p" "ak" "sk" "url"],
          services := [mkSvc "2" "other" 2 3] }
        (mkUser 7 "owner" 1 false) 1
      = (.text 200 "",
         { datacenters :=
             ({ datacenters := [mkDC 1 1 "test" "vcloud" "u" "p" "ak" "sk" "url"],
                services := [mkSvc "2" "other" 2 3] } : Store).datacenters.filter
               (fun x => x.id != (mkDC 1 1 "test" "vcloud" "u" "p" "ak" "sk" "url").id),
           services := [mkSvc "2" "other" 2 3] }) :=
  (c3_delete_referential_integrity
      { datacenters := [mkDC 1 1 "test" "vcloud" "u" "p" "ak" "sk" "url"],
        services := [mkSvc "2" "other" 2 3] }
      (mkUser 7 "owner" 1 false) 1
      (mkDC 1 1 "test" "vcloud" "u" "p" "ak" "sk" "url")
      (by decide) rfl).2 (by decide)

/-- C4: for a well-formed create request by a caller with an assigned
group: when some stored datacenter (of any tenant) already carries the
requested name, creation fails with 409 "Specified datacenter already
exists" and the store is unchanged; when no stored datacenter carries the
name, creation succeeds and the 200 reply carries the server-generated
identifier `freshID st`, which no stored datacenter already uses. -/
theorem c4_create_name_conflict (st : Store) (au : AuthenticatedUser)
    (d0 : Datacenter) (hg : au.groupID ≠ 0) (hv : d0.validate = none)
    (hid : d0.id = 0) :
    ((∃ e ∈ st.datacenters, e.name = d0.name) →
        createDatacenterHandler st au (some d0) false
          = (.httpError 409 "Specified datacenter already exists", st))
    ∧ ((∀ e ∈ st.datacenters, e.name ≠ d0.name) →
        createDatacenterHandler st au (some d0) false
          = (.jsonOne 200 { d0 with groupID := au.groupID, id := freshID st },
             { st with datacenters :=
                 st.datacenters ++ [{ d0 with groupID := au.groupID, id := freshID st }] })
        ∧ ∀ e ∈ st.datacenters, e.id ≠ freshID st) := by
  constructor
  · rintro ⟨e, he, hname⟩
    have hsome : ∃ y, st.findByName d0.name = some y := by
      have : (st.datacenters.find? (fun d => d.name == d0.name)).isSome := by
        rw [List.find?_isSome]
        exact ⟨e, he, by simp [hname]⟩
      exact Option.isSome_iff_exists.mp this
    obtain ⟨y, hy⟩ := hsome
    simp only [createDatacenterHandler, if_neg hg, hv]
    have hy2 : st.findByName ({ d0 with groupID := au.groupID } : Datacenter).name
        = some y := hy
    rw [hy2]
  · intro hnone
    have hn : st.findByName d0.name = none := by
      rw [Store.findByName, List.find?_eq_none]
      intro x hx
      simp [hnone x hx]
    simp only [createDatacenterHandler, if_neg hg, hv]
    have hn2 : st.findByName ({ d0 with groupID := au.groupID } : Datacenter).name
        = none := hn
    rw [hn2]
    refine ⟨?_, fun e he => Nat.ne_of_lt (id_lt_freshID st e he)⟩
    simp only [Bool.false_eq_true, if_false, Store.saveDatacenter, hid, if_pos]

/-- C4 witness: creating "other" while "test" is stored succeeds with the
fresh identifier 2, which the stored datacenter does not use. -/
theorem c4_witness :
    createDatacenterHandler
        { datacenters := [mkDC 1 1 "test" "vcloud" "u" "p" "ak" "sk" "url"],
          services := [] }
        (mkUser 7 "owner" 1 false)
        (some (mkDC 0 0 "other" "vcloud" "u" "p" "ak" "sk" "url")) false
      = (.jsonOne 200
           { mkDC 0 0 "other" "vcloud" "u" "p" "ak" "sk" "url" with
               groupID := (mkUser 7 "owner" 1 false).groupID,
               id := freshID { datacenters := [mkDC 1 1 "test" "vcloud" "u" "p" "ak" "sk" "url"],
                               services := [] } },
         { datacenters :=
             ({ datacenters := [mkDC 1 1 "test" "vcloud" "u" "p" "ak" "sk" "url"],
                services := [] } : Store).datacenters
               ++ [{ mkDC 0 0 "other" "vcloud" "u" "p" "ak" "sk" "url" with
                       groupID := (mkUser 7 "owner" 1 false).groupID,
                       id := freshID { datacenters := [mkDC 1 1 "test" "vcloud" "u" "p" "ak" "sk" "url"],
                                       services := [] } }],
           services := [] })
    ∧ ∀ e ∈ ({ datacenters := [mkDC 1 1 "test" "vcloud" "u" "p" "ak" "sk" "url"],
               services := [] } : Store).datacenters,
        e.id ≠ freshID { datacenters := [mkDC 1 1 "test" "vcloud" "u" "p" "ak" "sk" "url"],
                         services := [] } :=
  (c4_create_name_conflict
      { datacenters := [mkDC 1 1 "test" "vcloud" "u" "p" "ak" "sk" "url"],
        services := [] }
      (mkUser 7 "owner" 1 false)
      (mkDC 0 0 "other" "vcloud" "u" "p" "ak" "sk" "url")
      (by decide) rfl rfl).2 (by decide)

/-- C5: the service.get subscriber matches a stored service exactly when
— for a non-zero query group — both its group and identifier equal the
query's, and — for a zero query group — its identifier alone matches; a
found reply always carries a matching stored service, no match yields the
not-found sentinel reply, and one of the two replies is always
published. -/
theorem c5_service_get_matching (store : List Service) (qs : Service) :
    (∀ s, getServiceMatch qs s = true ↔
        ((qs.groupID ≠ 0 ∧ s.groupID = qs.groupID ∧ s.id = qs.id)
          ∨ (qs.groupID = 0 ∧ s.id = qs.id)))
    ∧ (∀ s, getServiceReply store (some qs) = .found s →
        s ∈ store ∧ getServiceMatch qs s = true)
    ∧ ((∀ s ∈ store, getServiceMatch qs s = false) →
        getServiceReply store (some qs) = .notFoundSentinel)
    ∧ ((∃ s ∈ store, getServiceMatch qs s = true) →
        ∃ s, getServiceReply store (some qs) = .found s)
    ∧ (getServiceReply store (some qs) = .notFoundSentinel
        ∨ ∃ s, getServiceReply store (some qs) = .found s) := by
  refine ⟨?_, ?_, ?_, ?_, ?_⟩
  · intro s
    simp only [getServiceMatch, Bool.or_eq_true, Bool.and_eq_true, bne_iff_ne,
      beq_iff_eq]
    tauto
  · intro s hs
    simp only [getServiceReply] at hs
    cases hfind : store.find? (fun x => getServiceMatch qs x) with
    | none => rw [hfind] at hs; cases hs
    | some y =>
      rw [hfind] at hs
      injection hs with h
      subst h
      exact ⟨List.mem_of_find?_eq_some hfind, List.find?_some hfind⟩
  · intro hall
    have hn : store.find? (fun x => getServiceMatch qs x) = none :=
      List.find?_eq_none.mpr (by intro x hx; simp [hall x hx])
    simp only [getServiceReply, hn]
  · rintro ⟨s, hs, hmatch⟩
    have : (store.find? (fun x => getServiceMatch qs x)).isSome :=
      List.find?_isSome.mpr ⟨s, hs, hmatch⟩
    obtain ⟨y, hy⟩ := Option.isSome_iff_exists.mp this
    exact ⟨y, by simp only [getServiceReply, hy]⟩
  · cases hfind : store.find? (fun x => getServiceMatch qs x) with
    | none => exact Or.inl (by simp only [getServiceReply, hfind])
    | some y => exact Or.inr ⟨y, by simp only [getServiceReply, hfind]⟩

/-- Members of a redacted-and-improved list carry no secrets. -/
lemma mem_redact_map (l : List Datacenter) (d : Datacenter)
    (hd : d ∈ l.map (fun x => (Datacenter.redact x).improve)) :
    d.password = "" ∧ d.accessKeyID = "" ∧ d.secretAccessKey = "" := by
  obtain ⟨y, -, rfl⟩ := List.mem_map.mp hd
  exact ⟨rfl, rfl, rfl⟩

/-- C6: GET /datacenters/ replies 200 with — for an admin — the full
stored list and — for a non-admin — only the caller's group's
datacenters, each entry passed through redaction (and the identity
enrichment), so every returned datacenter has empty `Password`,
`AccessKeyID` and `SecretAccessKey`. -/
theorem c6_list_scoping_and_redaction (st : Store) (au : AuthenticatedUser) :
    ∃ out, getDatacentersHandler st au = .jsonList 200 out
    ∧ (au.admin = true →
        out = st.datacenters.map (fun d => (Datacenter.redact d).improve))
    ∧ (au.admin = false →
        out = (st.datacenters.filter (fun d => d.groupID == au.groupID)).map
          (fun d => (Datacenter.redact d).improve))
    ∧ ∀ d ∈ out, d.password = "" ∧ d.accessKeyID = "" ∧ d.secretAccessKey = "" := by
  cases hadm : au.admin with
  | true =>
    refine ⟨st.datacenters.map (fun d => (Datacenter.redact d).improve),
      ?_, ?_, ?_, ?_⟩
    · simp [getDatacentersHandler, hadm]
    · intro _; rfl
    · intro h; exact Bool.noConfusion h
    · intro d hd; exact mem_redact_map _ _ hd
  | false =>
    refine ⟨(st.datacenters.filter (fun d => d.groupID == au.groupID)).map
        (fun d => (Datacenter.redact d).improve), ?_, ?_, ?_, ?_⟩
    · simp [getDatacentersHandler, hadm]
    · intro h; exact Bool.noConfusion h
    · intro _; rfl
    · intro d hd; exact mem_redact_map _ _ hd

/-- C7 (amended): when the store Save fails during create or update, the
handler logs the failure and still replies 200 with the request-derived
entity, leaving the store unchanged; the failure is not mapped to
InternalError (only a JSON marshal failure in update is). -/
theorem c7_save_failure_logged_not_propagated (st : Store)
    (au : AuthenticatedUser) (d0 : Datacenter) (idp : Nat)
    (existing : Datacenter) (hg : au.groupID ≠ 0) (hv : d0.validate = none)
    (hname : st.findByName d0.name = none)
    (hfind : st.findByID idp = some existing) :
    createDatacenterHandler st au (some d0) true
      = (.jsonOne 200 { d0 with groupID := au.groupID }, st)
    ∧ updateDatacenterHandler st au idp (some d0) true = (.jsonOne 200 d0, st) := by
  constructor
  · simp only [createDatacenterHandler, if_neg hg, hv]
    have hn2 : st.findByName ({ d0 with groupID := au.groupID } : Datacenter).name
        = none := hname
    rw [hn2]
    simp
  · simp only [updateDatacenterHandler, hfind]
    rw [if_neg (by simp)]
    simp

/-- C7 witness: a concrete create and update whose save fails still reply
200 with the unchanged store. -/
theorem c7_witness :
    createDatacenterHandler
        { datacenters := [mkDC 1 1 "test" "vcloud" "u" "p" "ak" "sk" "url"],
          services := [] }
        (mkUser 7 "owner" 1 false)
        (some (mkDC 0 0 "other" "vcloud" "u" "p" "ak" "sk" "url")) true
      = (.jsonOne 200
           { mkDC 0 0 "other" "vcloud" "u" "p" "ak" "sk" "url" with
               groupID := (mkUser 7 "owner" 1 false).groupID },
         { datacenters := [mkDC 1 1 "test" "vcloud" "u" "p" "ak" "sk" "url"],
           services := [] })
    ∧ updateDatacenterHandler
        { datacenters := [mkDC 1 1 "test" "vcloud" "u" "p" "ak" "sk" "url"],
          services := [] }
        (mkUser 7 "owner" 1 false) 1
        (some (mkDC 0 0 "other" "vcloud" "u" "p" "ak" "sk" "url")) true
      = (.jsonOne 200 (mkDC 0 0 "other" "vcloud" "u" "p" "ak" "sk" "url"),
         { datacenters := [mkDC 1 1 "test" "vcloud" "u" "p" "ak" "sk" "url"],
           services := [] }) :=
  c7_save_failure_logged_not_propagated
    { datacenters := [mkDC 1 1 "test" "vcloud" "u" "p" "ak" "sk" "url"],
      services := [] }
    (mkUser 7 "owner" 1 false)
    (mkDC 0 0 "other" "vcloud" "u" "p" "ak" "sk" "url") 1
    (mkDC 1 1 "test" "vcloud" "u" "p" "ak" "sk" "url")
    (by decide) rfl (by decide) (by decide)

/-- C8: the service.find subscriber replies with every stored service,
unfiltered by tenant or by any field of the query payload: the reply is
the store itself, membership-equivalent to it, and independent of the
query. -/
theorem c8_find_returns_everything_unfiltered (store : List Service)
    (q q2 : Option Service) :
    findServiceReply store q = store
    ∧ (∀ s, s ∈ findServiceReply store q ↔ s ∈ store)
    ∧ findServiceReply store q = findServiceReply store q2 :=
  ⟨rfl, fun _ => Iff.rfl, rfl⟩

/-- Success path of the update handler: when the target exists (with a
non-zero stored identifier) and the save succeeds, the reply is 200 with
the request entity and the store holds the credential-merged entity in
place of the target. -/
lemma updateDatacenterHandler_success (st : Store) (au : AuthenticatedUser)
    (idp : Nat) (d0 existing : Datacenter)
    (hfind : st.findByID idp = some existing) (hid : existing.id ≠ 0) :
    updateDatacenterHandler st au idp (some d0) false
      = (.jsonOne 200 d0,
         { st with datacenters := (st.datacenters.map
             (fun x => if x.id = existing.id then mergeCredentials existing d0 else x)) }) := by
  simp only [updateDatacenterHandler, hfind]
  rw [if_neg (by simp)]
  simp only [Bool.false_eq_true, if_false]
  rw [Store.saveDatacenter, if_neg (by exact hid)]
  rfl

/-- C9: a successful PUT /datacenters/:id changes only the four
credential fields of the stored datacenter — the merged entity persisted
in its place keeps the previous `ID`, `Name`, `Type`, `GroupID` and
`VCloudURL` while taking the request's credentials — and neither a
GroupID re-stamp nor a name-uniqueness re-check occurs: the theorem
places no constraint on the caller's group or on the request's name, and
the stored group is unchanged. -/
theorem c9_update_touches_only_credentials (st : Store)
    (au : AuthenticatedUser) (idp : Nat) (d0 existing : Datacenter)
    (hfind : st.findByID idp = some existing) (hid : existing.id ≠ 0) :
    updateDatacenterHandler st au idp (some d0) false
      = (.jsonOne 200 d0,
         { st with datacenters := (st.datacenters.map
             (fun x => if x.id = existing.id then mergeCredentials existing d0 else x)) })
    ∧ (mergeCredentials existing d0).id = existing.id
    ∧ (mergeCredentials existing d0).name = existing.name
    ∧ (mergeCredentials existing d0).type = existing.type
    ∧ (mergeCredentials existing d0).groupID = existing.groupID
    ∧ (mergeCredentials existing d0).vCloudURL = existing.vCloudURL
    ∧ (mergeCredentials existing d0).username = d0.username
    ∧ (mergeCredentials existing d0).password = d0.password
    ∧ (mergeCredentials existing d0).accessKeyID = d0.accessKeyID
    ∧ (mergeCredentials existing d0).secretAccessKey = d0.secretAccessKey :=
  ⟨updateDatacenterHandler_success st au idp d0 existing hfind hid,
   rfl, rfl, rfl, rfl, rfl, rfl, rfl, rfl, rfl⟩

/-- C9 witness: a caller of group 2 updating the stored group-1
datacenter id 1 with a colliding name in the body still succeeds, and the
store keeps identity fields while taking the new credentials. -/
theorem c9_witness :
    updateDatacenterHandler
        { datacenters := [mkDC 1 1 "test" "vcloud" "u" "p" "ak" "sk" "url"],
          services := [] }
        (mkUser 9 "other" 2 false) 1
        (some (mkDC 5 7 "test" "aws" "u2" "p2" "ak2" "sk2" "url2")) false
      = (.jsonOne 200 (mkDC 5 7 "test" "aws" "u2" "p2" "ak2" "sk2" "url2"),
         { datacenters :=
             ({ datacenters := [mkDC 1 1 "test" "vcloud" "u" "p" "ak" "sk" "url"],
                services := [] } : Store).datacenters.map
               (fun x => if x.id = (mkDC 1 1 "test" "vcloud" "u" "p" "ak" "sk" "url").id
                 then mergeCredentials (mkDC 1 1 "test" "vcloud" "u" "p" "ak" "sk" "url")
                        (mkDC 5 7 "test" "aws" "u2" "p2" "ak2" "sk2" "url2")
                 else x),
           services := [] })
    ∧ (mergeCredentials (mkDC 1 1 "test" "vcloud" "u" "p" "ak" "sk" "url")
         (mkDC 5 7 "test" "aws" "u2" "p2" "ak2" "sk2" "url2")).id
        = (mkDC 1 1 "test" "vcloud" "u" "p" "ak" "sk" "url").id
    ∧ (mergeCredentials (mkDC 1 1 "test" "vcloud" "u" "p" "ak" "sk" "url")
         (mkDC 5 7 "test" "aws" "u2" "p2" "ak2" "sk2" "url2")).name
        = (mkDC 1 1 "test" "vcloud" "u" "p" "ak" "sk" "url").name
    ∧ (mergeCredentials (mkDC 1 1 "test" "vcloud" "u" "p" "ak" "sk" "url")
         (mkDC 5 7 "test" "aws" "u2" "p2" "ak2" "sk2" "url2")).type
        = (mkDC 1 1 "test" "vcloud" "u" "p" "ak" "sk" "url").type
    ∧ (mergeCredentials (mkDC 1 1 "test" "vcloud" "u" "p" "ak" "sk" "url")
         (mkDC 5 7 "test" "aws" "u2" "p2" "ak2" "sk2" "url2")).groupID
        = (mkDC 1 1 "test" "vcloud" "u" "p" "ak" "sk" "url").groupID
    ∧ (mergeCredentials (mkDC 1 1 "test" "vcloud" "u" "p" "ak" "sk" "url")
         (mkDC 5 7 "test" "aws" "u2" "p2" "ak2" "sk2" "url2")).vCloudURL
        = (mkDC 1 1 "test" "vcloud" "u" "p" "ak" "sk" "url").vCloudURL
    ∧ (mergeCredentials (mkDC 1 1 "test" "vcloud" "u" "p" "ak" "sk" "url")
         (mkDC 5 7 "test" "aws" "u2" "p2" "ak2" "sk2" "url2")).username
        = (mkDC 5 7 "test" "aws" "u2" "p2" "ak2" "sk2" "url2").username
    ∧ (mergeCredentials (mkDC 1 1 "test" "vcloud" "u" "p" "ak" "sk" "url")
         (mkDC 5 7 "test" "aws" "u2" "p2" "ak2" "sk2" "url2")).password
        = (mkDC 5 7 "test" "aws" "u2" "p2" "ak2" "sk2" "url2").password
    ∧ (mergeCredentials (mkDC 1 1 "test" "vcloud" "u" "p" "ak" "sk" "url")
         (mkDC 5 7 "test" "aws" "u2" "p2" "ak2" "sk2" "url2")).accessKeyID
        = (mkDC 5 7 "test" "aws" "u2" "p2" "ak2" "sk2" "url2").accessKeyID
    ∧ (mergeCredentials (mkDC 1 1 "test" "vcloud" "u" "p" "ak" "sk" "url")
         (mkDC 5 7 "test" "aws" "u2" "p2" "ak2" "sk2" "url2")).secretAccessKey
        = (mkDC 5 7 "test" "aws" "u2" "p2" "ak2" "sk2" "url2").secretAccessKey :=
  c9_update_touches_only_credentials
    { datacenters := [mkDC 1 1 "test" "vcloud" "u" "p" "ak" "sk" "url"],
      services := [] }
    (mkUser 9 "other" 2 false) 1
    (mkDC 5 7 "test" "aws" "u2" "p2" "ak2" "sk2" "url2")
    (mkDC 1 1 "test" "vcloud" "u" "p" "ak" "sk" "url")
    (by decide) (by decide)

/-- C10: the 200 reply of a successful PUT /datacenters/:id carries the
client-submitted entity itself, not the persisted merged entity: with a
body whose non-credential fields are zero-valued, those fields come back
zero-valued even though the stored merged entity retains its previous
`ID`, `Name`, `Type`, `GroupID` and `VCloudURL`. -/
theorem c10_update_response_echoes_request (st : Store)
    (au : AuthenticatedUser) (idp : Nat) (d0 existing : Datacenter)
    (hfind : st.findByID idp = some existing) (hid : existing.id ≠ 0)
    (h0 : d0.id = 0) (h1 : d0.name = "") (h2 : d0.type = "")
    (h3 : d0.groupID = 0) (h4 : d0.vCloudURL = "") :
    ∃ r, updateDatacenterHandler st au idp (some d0) false
        = (.jsonOne 200 r,
           { st with datacenters := (st.datacenters.map
               (fun x => if x.id = existing.id then mergeCredentials existing d0 else x)) })
      ∧ r = d0 ∧ r.id = 0 ∧ r.name = "" ∧ r.type = "" ∧ r.groupID = 0
      ∧ r.vCloudURL = ""
      ∧ (mergeCredentials existing d0).id = existing.id
      ∧ (mergeCredentials existing d0).name = existing.name
      ∧ (mergeCredentials existing d0).type = existing.type
      ∧ (mergeCredentials existing d0).groupID = existing.groupID
      ∧ (mergeCredentials existing d0).vCloudURL = existing.vCloudURL :=
  ⟨d0, updateDatacenterHandler_success st au idp d0 existing hfind hid,
   rfl, h0, h1, h2, h3, h4, rfl, rfl, rfl, rfl, rfl⟩

/-- C10 witness: updating the stored group-1 datacenter id 1 with a body
carrying only credentials returns zero-valued identity fields while the
stored entity keeps them. -/
theorem c10_witness :
    ∃ r, updateDatacenterHandler
          { datacenters := [mkDC 1 1 "test" "vcloud" "u" "p" "ak" "sk" "url"],
            services := [] }
          (mkUser 7 "owner" 1 false) 1
          (some (mkDC 0 0 "" "" "u2" "p2" "ak2" "sk2" "")) false
        = (.jsonOne 200 r,
           { datacenters :=
               ({ datacenters := [mkDC 1 1 "test" "vcloud" "u" "p" "ak" "sk" "url"],
                  services := [] } : Store).datacenters.map
                 (fun x => if x.id = (mkDC 1 1 "test" "vcloud" "u" "p" "ak" "sk" "url").id
                   then mergeCredentials (mkDC 1 1 "test" "vcloud" "u" "p" "ak" "sk" "url")
                          (mkDC 0 0 "" "" "u2" "p2" "ak2" "sk2" "")
                   else x),
             services := [] })
      ∧ r = mkDC 0 0 "" "" "u2" "p2" "ak2" "sk2" ""
      ∧ r.id = 0 ∧ r.name = "" ∧ r.type = "" ∧ r.groupID = 0 ∧ r.vCloudURL = ""
      ∧ (mergeCredentials (mkDC 1 1 "test" "vcloud" "u" "p" "ak" "sk" "url")
           (mkDC 0 0 "" "" "u2" "p2" "ak2" "sk2" "")).id
          = (mkDC 1 1 "test" "vcloud" "u" "p" "ak" "sk" "url").id
      ∧ (mergeCredentials (mkDC 1 1 "test" "vcloud" "u" "p" "ak" "sk" "url")
           (mkDC 0 0 "" "" "u2" "p2" "ak2" "sk2" "")).name
          = (mkDC 1 1 "test" "vcloud" "u" "p" "ak" "sk" "url").name
      ∧ (mergeCredentials (mkDC 1 1 "test" "vcloud" "u" "p" "ak" "sk" "url")
           (mkDC 0 0 "" "" "u2" "p2" "ak2" "sk2" "")).type
          = (mkDC 1 1 "test" "vcloud" "u" "p" "ak" "sk" "url").type
      ∧ (mergeCredentials (mkDC 1 1 "test" "vcloud" "u" "p" "ak" "sk" "url")
           (mkDC 0 0 "" "" "u2" "p2" "ak2" "sk2" "")).groupID
          = (mkDC 1 1 "test" "vcloud" "u" "p" "ak" "sk" "url").groupID
      ∧ (mergeCredentials (mkDC 1 1 "test" "vcloud" "u" "p" "ak" "sk" "url")
           (mkDC 0 0 "" "" "u2" "p2" "ak2" "sk2" "")).vCloudURL
          = (mkDC 1 1 "test" "vcloud" "u" "p" "ak" "sk" "url").vCloudURL :=
  c10_update_response_echoes_request
    { datacenters := [mkDC 1 1 "test" "vcloud" "u" "p" "ak" "sk" "url"],
      services := [] }
    (mkUser 7 "owner" 1 false) 1
    (mkDC 0 0 "" "" "u2" "p2" "ak2" "sk2" "")
    (mkDC 1 1 "test" "vcloud" "u" "p" "ak" "sk" "url")
    (by decide) (by decide) rfl rfl rfl rfl rfl

end ApiGateway
